import Mathlib

/-
  Verification of the Lab Workflow & Access Control Engine of the
  Medical Laboratory Management System (src/main.py).

  The data model and the operations below are shallow embeddings of the
  Python source.  Pure UI plumbing (widgets, dialogs) is dropped; the
  decision logic of each save handler is translated verbatim.  Code of
  the repository that lives in modules absent from src (database.py,
  models.py, utils.py) is modelled from the spec, and each such
  definition carries a doc comment starting with "Modelled from the
  spec:".
-/

namespace MedLab

/-- Gender enum from models (used positionally in src/main.py). -/
inductive Gender
  | MALE
  | FEMALE
  | OTHER
deriving DecidableEq, Repr

/-- TestStatus enum: the four statuses offered by the edit-test-request
combo box in src/main.py. -/
inductive TestStatus
  | PENDING
  | IN_PROGRESS
  | COMPLETED
  | CANCELLED
deriving DecidableEq, Repr

/-- SampleStatus enum: the three statuses offered by the sample dialogs. -/
inductive SampleStatus
  | COLLECTED
  | PROCESSING
  | COMPLETED
deriving DecidableEq, Repr

/-- UserRole enum from models, as used in src/main.py. -/
inductive UserRole
  | ADMIN
  | TECHNICIAN
  | DOCTOR
  | RECEPTIONIST
deriving DecidableEq, Repr

/-- Permission enum: the capabilities enumerated in the user-management
screens of src/main.py (lines 5218-5247). -/
inductive Permission
  | VIEW_PATIENTS
  | ADD_PATIENT
  | EDIT_PATIENT
  | DELETE_PATIENT
  | VIEW_TESTS
  | ADD_TEST
  | EDIT_TEST
  | DELETE_TEST
  | VIEW_SAMPLES
  | ADD_SAMPLE
  | EDIT_SAMPLE
  | DELETE_SAMPLE
  | VIEW_REPORTS
  | ADD_REPORT
  | EDIT_REPORT
  | DELETE_REPORT
  | SIGN_REPORT
  | VIEW_BILLING
  | ADD_INVOICE
  | EDIT_INVOICE
  | DELETE_INVOICE
  | VIEW_INVENTORY
  | ADD_INVENTORY
  | EDIT_INVENTORY
  | DELETE_INVENTORY
  | VIEW_USERS
  | ADD_USER
  | EDIT_USER
  | DELETE_USER
  | VIEW_STATISTICS
  | GENERATE_REPORTS
deriving DecidableEq, Repr

/-- Patient record, fields as constructed in src/main.py. -/
structure Patient where
  id : String
  name : String
  age : Int
  gender : Gender
  contact_info : String
deriving DecidableEq, Repr

/-- TestType record; constructor field order follows the positional
calls in src/main.py (id, name, description, price, category). -/
structure TestType where
  id : String
  name : String
  description : String
  price : Rat
  category : String
deriving DecidableEq, Repr

/-- TestRequest record, fields as constructed in src/main.py.
Timestamps are modelled as natural numbers. -/
structure TestRequest where
  id : String
  patient_id : String
  test_type_id : String
  requested_by : String
  requested_at : Nat
  status : TestStatus
deriving DecidableEq, Repr

/-- Sample record, fields as constructed in src/main.py. -/
structure Sample where
  id : String
  test_request_id : String
  barcode : String
  collected_at : Nat
  status : SampleStatus
  notes : String
deriving DecidableEq, Repr

/-- MedicalReport record, fields as constructed in src/main.py.
`signed_at` is nullable, hence an Option. -/
structure MedicalReport where
  id : String
  test_request_id : String
  content : String
  signed_by : String
  signed_at : Option Nat
deriving DecidableEq, Repr

/-- User record, fields per the models import and their uses in
src/main.py. -/
structure User where
  id : String
  username : String
  email : String
  password_hash : String
  role : UserRole
  permissions : List Permission
  is_active : Bool
deriving DecidableEq, Repr

/-- The persistent store behind DatabaseManager: one list per entity
kind.  Modelled from the spec: the PersistenceGateway (database.py is
absent from src) exposes CRUD-style operations per entity. -/
structure Store where
  patients : List Patient
  test_types : List TestType
  test_requests : List TestRequest
  samples : List Sample
  reports : List MedicalReport
  users : List User
deriving DecidableEq, Repr

/-- Modelled from the spec: PersistenceGateway create for Patient
(database.py is absent from src). -/
def dbCreatePatient (p : Patient) (store : Store) : Store :=
  { store with patients := p :: store.patients }

/-- Modelled from the spec: PersistenceGateway create for TestType. -/
def dbCreateTestType (t : TestType) (store : Store) : Store :=
  { store with test_types := t :: store.test_types }

/-- Modelled from the spec: PersistenceGateway create for TestRequest. -/
def dbCreateTestRequest (r : TestRequest) (store : Store) : Store :=
  { store with test_requests := r :: store.test_requests }

/-- Modelled from the spec: PersistenceGateway create for Sample. -/
def dbCreateSample (s : Sample) (store : Store) : Store :=
  { store with samples := s :: store.samples }

/-- Modelled from the spec: PersistenceGateway create for MedicalReport. -/
def dbCreateReport (r : MedicalReport) (store : Store) : Store :=
  { store with reports := r :: store.reports }

/-- Modelled from the spec: PersistenceGateway create for User. -/
def dbCreateUser (u : User) (store : Store) : Store :=
  { store with users := u :: store.users }

/-- Modelled from the spec: PersistenceGateway update for TestRequest
(replace the row with the matching id). -/
def dbUpdateTestRequest (r : TestRequest) (store : Store) : Store :=
  { store with test_requests :=
      store.test_requests.map (fun x => if x.id = r.id then r else x) }

/-- Modelled from the spec: PersistenceGateway update for MedicalReport
(replace the row with the matching id). -/
def dbUpdateReport (r : MedicalReport) (store : Store) : Store :=
  { store with reports :=
      store.reports.map (fun x => if x.id = r.id then r else x) }

/-- Modelled from the spec: find_by_username lookup of the
PersistenceGateway (database.py is absent from src). -/
def getUserByUsername (username : String) (store : Store) : Option User :=
  store.users.find? (fun u => u.username == username)

/-! ### Sequential display identifiers

`generate_patient_id` and `get_next_test_id` live in database.py, which
is absent from src; they are modelled from the spec (section 4.1):
zero-padded fixed-width decimal strings, allocated as the current
maximum plus one, failing with AllocationExhausted when the width is
exceeded. -/

/-- The most-significant-first decimal digits of `n`, zero-padded to
width `w`. -/
def padDigits : Nat → Nat → List Nat
  | 0, _ => []
  | w + 1, n => padDigits w (n / 10) ++ [n % 10]

/-- Render a digit list as a string of ASCII digit characters. -/
def digitsToString (l : List Nat) : String :=
  ⟨l.map (fun d => Char.ofNat (48 + d))⟩

/-- Zero-padded 8-digit decimal string (the Patient display-ID shape). -/
def pad8 (n : Nat) : String :=
  digitsToString (padDigits 8 n)

/-- Numeric value of an ASCII digit character. -/
def charDigitVal (c : Char) : Nat := c.toNat - 48

/-- Value of a most-significant-first digit list. -/
def digitsVal (l : List Nat) : Nat :=
  l.foldl (fun a d => a * 10 + d) 0

/-- Numeric value of a decimal-digit string. -/
def idVal (s : String) : Nat :=
  digitsVal (s.data.map charDigitVal)

/-- Current maximum allocated patient display ID in the store. -/
def maxPatientNum (store : Store) : Nat :=
  store.patients.foldl (fun m p => max m (idVal p.id)) 0

/-- Modelled from the spec: allocate_next for Patient (section 4.1) —
the smallest unused value strictly greater than the current maximum,
computed by querying the persistence collaborator; `none` models
AllocationExhausted once the 8-digit width is exceeded. -/
def generatePatientId (store : Store) : Option String :=
  let n := maxPatientNum store + 1
  if n ≤ 99999999 then some (pad8 n) else none

/-- Current maximum allocated sequential TestType display ID (legacy
opaque ids, which are not all-digit strings, are ignored). -/
def maxTestTypeNum (store : Store) : Nat :=
  store.test_types.foldl
    (fun m t =>
      if t.id ≠ "" ∧ t.id.data.all (fun c => c.isDigit) then max m (idVal t.id) else m)
    0

/-- Modelled from the spec: get_next_test_id — 3-digit sequential
display ID for the fast-add TestType path (section 4.1). -/
def generateTestTypeId (store : Store) : Option String :=
  let n := maxTestTypeNum store + 1
  if n ≤ 999 then some (digitsToString (padDigits 3 n)) else none

/-! ### Input parsing

The dialogs read raw strings; `int(...)` and `float(...)` of Python are
modelled on plain decimal literals (optional sign, digits, and for
float an optional fractional part), which covers every input the
validation logic is exercised on. -/

/-- Model of Python str.strip(): drop whitespace from both ends. -/
def pyStrip (s : String) : String :=
  ⟨((s.data.dropWhile Char.isWhitespace).reverse.dropWhile Char.isWhitespace).reverse⟩

/-- Value of a character list when it is a non-empty run of decimal
digits, else `none`. -/
def digitsOfChars (l : List Char) : Option Nat :=
  if l = [] then none
  else if l.all (fun c => c.isDigit) then some (digitsVal (l.map charDigitVal))
  else none

/-- Model of Python int() on plain decimal literals. -/
def parseIntPy (s : String) : Option Int :=
  match s.data with
  | '-' :: rest => (digitsOfChars rest).map (fun n => -(n : Int))
  | '+' :: rest => (digitsOfChars rest).map (fun n => (n : Int))
  | l => (digitsOfChars l).map (fun n => (n : Int))

/-- Split a character list on the dot character, keeping empty
segments, per str.split semantics. -/
def splitOnDot : List Char → List (List Char)
  | [] => [[]]
  | c :: rest =>
    let r := splitOnDot rest
    if c = '.' then [] :: r
    else (c :: r.headD []) :: r.tail

/-- Unsigned part of a plain decimal float literal. -/
def parseUnsignedRat (s : String) : Option Rat :=
  match splitOnDot s.data with
  | [w] => (digitsOfChars w).map (fun n => (n : Rat))
  | [w, f] =>
      if w = [] ∧ f = [] then none
      else if w.all (fun c => c.isDigit) ∧ f.all (fun c => c.isDigit) then
        some ((digitsVal (w.map charDigitVal) : Rat) +
              (digitsVal (f.map charDigitVal) : Rat) / ((10 : Rat) ^ f.length))
      else none
  | _ => none

/-- Model of Python float() on plain decimal literals. -/
def parseFloatPy (s : String) : Option Rat :=
  match s.data with
  | '-' :: rest => (parseUnsignedRat ⟨rest⟩).map (fun q => -q)
  | '+' :: rest => parseUnsignedRat ⟨rest⟩
  | _ => parseUnsignedRat s

/-! ### SHA-256

`hash_password` (src/main.py lines 313-314) is
`hashlib.sha256(password.encode()).hexdigest()`; the hash itself is
embedded below as a pure function on byte lists, words being naturals
reduced modulo 2^32. -/

/-- The SHA-256 word modulus, 2 to the 32. -/
def w32 : Nat := 4294967296

/-- Rotate a word right by n bit positions, staying below the word
modulus. -/
def rotr32 (n x : Nat) : Nat :=
  ((x >>> n) ||| (x <<< (32 - n))) % w32

/-- SHA-256 big sigma 0. -/
def bSig0 (x : Nat) : Nat := rotr32 2 x ^^^ rotr32 13 x ^^^ rotr32 22 x

/-- SHA-256 big sigma 1. -/
def bSig1 (x : Nat) : Nat := rotr32 6 x ^^^ rotr32 11 x ^^^ rotr32 25 x

/-- SHA-256 small sigma 0. -/
def sSig0 (x : Nat) : Nat := rotr32 7 x ^^^ rotr32 18 x ^^^ (x >>> 3)

/-- SHA-256 small sigma 1. -/
def sSig1 (x : Nat) : Nat := rotr32 17 x ^^^ rotr32 19 x ^^^ (x >>> 10)

/-- SHA-256 choice function (complement taken as xor with 2^32 - 1). -/
def chFun (x y z : Nat) : Nat := (x &&& y) ^^^ ((x ^^^ 4294967295) &&& z)

/-- SHA-256 majority function. -/
def majFun (x y z : Nat) : Nat := (x &&& y) ^^^ (x &&& z) ^^^ (y &&& z)

/-- The 64 round constants of SHA-256, written in decimal. -/
def K256 : List Nat :=
  [1116352408, 1899447441, 3049323471, 3921009573, 961987163, 1508970993,
   2453635748, 2870763221, 3624381080, 310598401, 607225278, 1426881987,
   1925078388, 2162078206, 2614888103, 3248222580, 3835390401, 4022224774,
   264347078, 604807628, 770255983, 1249150122, 1555081692, 1996064986,
   2554220882, 2821834349, 2952996808, 3210313671, 3336571891, 3584528711,
   113926993, 338241895, 666307205, 773529912, 1294757372, 1396182291,
   1695183700, 1986661051, 2177026350, 2456956037, 2730485921, 2820302411,
   3259730800, 3345764771, 3516065817, 3600352804, 4094571909, 275423344,
   430227734, 506948616, 659060556, 883997877, 958139571, 1322822218,
   1537002063, 1747873779, 1955562222, 2024104815, 2227730452, 2361852424,
   2428436474, 2756734187, 3204031479, 3329325298]

/-- The initial hash state of SHA-256, written in decimal. -/
def H256 : List Nat :=
  [1779033703, 3144134277, 1013904242, 2773480762,
   1359893119, 2600822924, 528734635, 1541459225]

/-- Big-endian 8-byte encoding of a natural number. -/
def be64 (n : Nat) : List Nat :=
  (List.range 8).map (fun i => n / 2 ^ (8 * (7 - i)) % 256)

/-- SHA-256 message padding: append 0x80, zeros, and the 64-bit
big-endian bit length, up to a multiple of 64 bytes. -/
def padMsg (m : List Nat) : List Nat :=
  let z := (119 - (m.length % 64)) % 64
  m ++ 128 :: (List.replicate z 0 ++ be64 (8 * m.length))

/-- Pack bytes, big-endian, into 32-bit words. -/
def toWords : List Nat → List Nat
  | b0 :: b1 :: b2 :: b3 :: rest => (((b0 * 256 + b1) * 256 + b2) * 256 + b3) :: toWords rest
  | _ => []

/-- Split a word list into 16-word blocks. -/
def chunk16 : List Nat → List (List Nat)
  | x0 :: x1 :: x2 :: x3 :: x4 :: x5 :: x6 :: x7 ::
    x8 :: x9 :: x10 :: x11 :: x12 :: x13 :: x14 :: x15 :: rest =>
      [x0, x1, x2, x3, x4, x5, x6, x7, x8, x9, x10, x11, x12, x13, x14, x15] :: chunk16 rest
  | _ => []

/-- Extend a 16-word block to the 64-word message schedule. -/
def msgSchedule (block : List Nat) : Array Nat :=
  (List.range 48).foldl
    (fun w _ =>
      let i := w.size
      w.push ((sSig1 (w.getD (i - 2) 0) + w.getD (i - 7) 0 +
               sSig0 (w.getD (i - 15) 0) + w.getD (i - 16) 0) % w32))
    block.toArray

/-- One SHA-256 round on the working state [a,b,c,d,e,f,g,h]. -/
def roundStep (st : List Nat) (kw : Nat) : List Nat :=
  let a := st.getD 0 0
  let b := st.getD 1 0
  let c := st.getD 2 0
  let d := st.getD 3 0
  let e := st.getD 4 0
  let f := st.getD 5 0
  let g := st.getD 6 0
  let hh := st.getD 7 0
  let t1 := (hh + bSig1 e + chFun e f g + kw) % w32
  let t2 := (bSig0 a + majFun a b c) % w32
  [(t1 + t2) % w32, a, b, c, (d + t1) % w32, e, f, g]

/-- SHA-256 compression of one block into the running hash. -/
def compressBlock (hs : List Nat) (block : List Nat) : List Nat :=
  let w := msgSchedule block
  let st := (List.range 64).foldl
    (fun st i => roundStep st ((K256.getD i 0 + w.getD i 0) % w32)) hs
  (List.range 8).map (fun i => (hs.getD i 0 + st.getD i 0) % w32)

/-- SHA-256 digest of a byte list, as eight 32-bit words. -/
def sha256Words (m : List Nat) : List Nat :=
  (chunk16 (toWords (padMsg m))).foldl compressBlock H256

/-- Lower-case hex digit. -/
def hexDigit (n : Nat) : Char :=
  if n < 10 then Char.ofNat (48 + n) else Char.ofNat (87 + n)

/-- Eight hex characters of a 32-bit word. -/
def wordHexChars (w : Nat) : List Char :=
  (List.range 8).map (fun i => hexDigit (w / 16 ^ (7 - i) % 16))

/-- Bytes of a string; equals its UTF-8 encoding on the ASCII inputs
used here. -/
def strBytes (s : String) : List Nat :=
  s.data.map (fun c => c.toNat)

/-- Hex digest of SHA-256 of a string, per hashlib hexdigest. -/
def sha256Hex (s : String) : String :=
  ⟨(sha256Words (strBytes s)).foldr (fun w acc => wordHexChars w ++ acc) []⟩

/-- hash_password from src/main.py lines 313-314. -/
def hashPassword (password : String) : String :=
  sha256Hex password

/-! ### Authentication and authorization gates

The translation wrapper `_()` of the source is the identity in the
default locale and is dropped.  The only authorization decisions in
src/main.py are role comparisons; the explicit permission sets are
collected by the user-management screens but never consulted by any
gate. -/

/-- Modelled from the spec: authenticate (section 6) — exact-match
lookup by username then hash comparison (database.py is absent from
src). -/
def authenticateUser (username password_hash : String) (store : Store) : Option User :=
  match getUserByUsername username store with
  | none => none
  | some u => if u.password_hash == password_hash then some u else none

/-- login from src/main.py lines 357-390: empty fields are rejected
before any lookup; otherwise the password is hashed and the user
authenticated.  `some u` models a successful login setting
current_user to `u`. -/
def login (username password : String) (store : Store) : Option User :=
  if username = "" ∨ password = "" then none
  else authenticateUser username (hashPassword password) store

/-- The gate of edit_system_name (src/main.py lines 1654-1660): the
operation proceeds only when a user is logged in and their role is
ADMIN. -/
def editSystemNameAllowed (current_user : Option User) : Bool :=
  match current_user with
  | none => false
  | some u => u.role == UserRole.ADMIN

/-- Button states produced by enable_navigation. -/
structure NavState where
  nav_enabled : Bool
  admin_buttons_enabled : Bool
deriving DecidableEq, Repr

/-- enable_navigation from src/main.py lines 407-423: every navigation
button is enabled in both branches; the admin-only buttons are enabled
exactly when the role is ADMIN. -/
def enableNavigation (u : User) : NavState :=
  if u.role == UserRole.ADMIN then { nav_enabled := true, admin_buttons_enabled := true }
  else { nav_enabled := true, admin_buttons_enabled := false }

/-- The admin user created at startup (src/main.py lines 285-294);
`adminId` stands for str(uuid.uuid4()).  Modelled from the spec: the
User constructor defaults omitted at the call site (models.py is absent
from src) — an empty explicit permission set and an active account. -/
def adminUser (adminId : String) : User :=
  { id := adminId, username := "admin", email := "admin@lab.com",
    password_hash := hashPassword "admin123", role := UserRole.ADMIN,
    permissions := [], is_active := true }

/-- The four sample test types seeded at startup, with their fresh
opaque ids supplied by the caller. -/
def sampleTestTypes (ids : List String) : List TestType :=
  (ids.zip
    [("Complete Blood Count", "Measures several components and features of blood", (50 : Rat), "Blood"),
     ("Urinalysis", "Analysis of urine components", (30 : Rat), "Urine"),
     ("Stool Analysis", "Examination of stool sample", (40 : Rat), "Stool"),
     ("X-Ray Chest", "Chest X-Ray imaging", (100 : Rat), "Radiology")]).map
    (fun p =>
      { id := p.1, name := p.2.1, description := p.2.2.1,
        price := p.2.2.2.1, category := p.2.2.2.2 })

/-- load_initial_data from src/main.py lines 283-309: create the admin
user when absent, then seed the sample test types when the catalog is
empty. -/
def loadInitialData (adminId : String) (ttIds : List String) (store : Store) : Store :=
  let store1 :=
    match getUserByUsername "admin" store with
    | some _ => store
    | none => dbCreateUser (adminUser adminId) store
  if store1.test_types = [] then
    (sampleTestTypes ttIds).foldl (fun s t => dbCreateTestType t s) store1
  else store1

/-! ### TestRequest editing (src/main.py lines 1602-1643) -/

/-- The status_map dictionary of save_changes in edit_test_request,
including its .get default of PENDING for an unknown label. -/
def statusMap (label : String) : TestStatus :=
  if label = "Pending" then TestStatus.PENDING
  else if label = "In Progress" then TestStatus.IN_PROGRESS
  else if label = "Completed" then TestStatus.COMPLETED
  else if label = "Cancelled" then TestStatus.CANCELLED
  else TestStatus.PENDING

/-- save_changes of edit_test_request (src/main.py lines 1602-1643):
reject an empty requested-by, map the selected label to a status, write
both fields onto the request and persist it.  No other check is made
before the update. -/
def editTestRequestSave (requested_by_raw statusLabel : String)
    (request : TestRequest) (store : Store) :
    Except String (TestRequest × Store) :=
  let requested_by := pyStrip requested_by_raw
  if requested_by = "" then Except.error "Please enter who requested the test"
  else
    let r := { request with requested_by := requested_by, status := statusMap statusLabel }
    Except.ok (r, dbUpdateTestRequest r store)

/-! ### MedicalReport lifecycle -/

/-- save_changes of view_report (src/main.py lines 659-675): the
content is replaced, and only when the report carries the unsigned
sentinel are the signature fields set to the current user (or
"System") and the current time. -/
def updateContent (report : MedicalReport) (newContentRaw : String)
    (current_user : Option User) (now : Nat) : MedicalReport :=
  let r := { report with content := pyStrip newContentRaw }
  if r.signed_by = "N/A" then
    { r with
      signed_by := match current_user with
        | some u => u.id
        | none => "System",
      signed_at := some now }
  else r

/-- The full view_report save path: mutate the report, then persist. -/
def viewReportSave (report : MedicalReport) (newContentRaw : String)
    (current_user : Option User) (now : Nat) (store : Store) :
    MedicalReport × Store :=
  let r := updateContent report newContentRaw current_user now
  (r, dbUpdateReport r store)

/-- save_result of edit_result (src/main.py lines 3751-3772): an empty
content is rejected; otherwise the content is replaced and the
signature fields are overwritten unconditionally with the current user
(sentinel "N/A" when nobody is logged in) and the current time. -/
def editResultSave (selected_report : MedicalReport) (contentRaw : String)
    (current_user : Option User) (now : Nat) (store : Store) :
    Except String (MedicalReport × Store) :=
  let content := pyStrip contentRaw
  if content = "" then Except.error "Please enter result content"
  else
    let r := { selected_report with
      content := content,
      signed_by := match current_user with
        | some u => u.id
        | none => "N/A",
      signed_at := some now }
    Except.ok (r, dbUpdateReport r store)

/-- save_report of create_report (src/main.py lines 4492-4519): only
non-emptiness of the typed request id and content is checked; the
report is then built (signed by the current user, or carrying "N/A")
and persisted.  `newId` stands for str(uuid.uuid4()). -/
def createReportSave (requestIdRaw contentRaw : String)
    (current_user : Option User) (newId : String) (now : Nat) (store : Store) :
    Except String (MedicalReport × Store) :=
  let request_id := pyStrip requestIdRaw
  let content := pyStrip contentRaw
  if request_id = "" then Except.error "Please enter test request ID"
  else if content = "" then Except.error "Please enter report content"
  else
    let report : MedicalReport :=
      { id := newId, test_request_id := request_id, content := content,
        signed_by := match current_user with
          | some u => u.id
          | none => "N/A",
        signed_at := some now }
    Except.ok (report, dbCreateReport report store)

/-! ### Patient and TestType creation (src/main.py lines 970-1020 and
2286-2326) -/

/-- The gender_map dictionary of save_patient, including its .get
default of OTHER. -/
def genderMap (s : String) : Gender :=
  if s = "Male" then Gender.MALE
  else if s = "Female" then Gender.FEMALE
  else if s = "Other" then Gender.OTHER
  else Gender.OTHER

/-- save_patient of add_patient (src/main.py lines 970-1020): name,
age and gender are validated, in that order, before any storage call;
only then is an id allocated and the patient persisted.  The store is
returned unchanged on every validation failure. -/
def savePatient (nameRaw ageRaw genderText contactRaw : String) (store : Store) :
    Except String Patient × Store :=
  let name := pyStrip nameRaw
  let age_str := pyStrip ageRaw
  let contact := pyStrip contactRaw
  if name = "" then (Except.error "Please enter patient name", store)
  else
    match parseIntPy age_str with
    | none => (Except.error "Please enter a valid age", store)
    | some age =>
      if age < 0 ∨ age > 150 then (Except.error "Please enter a valid age", store)
      else if genderText = "" then (Except.error "Please select gender", store)
      else
        match generatePatientId store with
        | none => (Except.error "AllocationExhausted", store)
        | some pid =>
          let patient : Patient :=
            { id := pid, name := name, age := age,
              gender := genderMap genderText, contact_info := contact }
          (Except.ok patient, dbCreatePatient patient store)

/-- save_test of add_test (src/main.py lines 2286-2326): name, category
and price are validated, in that order, before any storage call; only
then is a sequential id allocated and the test type persisted. -/
def saveTest (nameRaw categoryRaw priceRaw descRaw : String) (store : Store) :
    Except String TestType × Store :=
  let name := pyStrip nameRaw
  let category := pyStrip categoryRaw
  let price_str := pyStrip priceRaw
  let description := pyStrip descRaw
  if name = "" then (Except.error "Please enter test name", store)
  else if category = "" then (Except.error "Please enter category", store)
  else
    match parseFloatPy price_str with
    | none => (Except.error "Please enter a valid price", store)
    | some price =>
      if price < 0 then (Except.error "Please enter a valid price", store)
      else
        match generateTestTypeId store with
        | none => (Except.error "AllocationExhausted", store)
        | some tid =>
          let t : TestType :=
            { id := tid, name := name, description := description,
              price := price, category := category }
          (Except.ok t, dbCreateTestType t store)

/-! ### Sample entry (src/main.py lines 2694-2767) -/

/-- The status_map dictionary of save_sample, including its .get
default of COLLECTED. -/
def sampleStatusMap (label : String) : SampleStatus :=
  if label = "Collected" then SampleStatus.COLLECTED
  else if label = "Processing" then SampleStatus.PROCESSING
  else if label = "Completed" then SampleStatus.COMPLETED
  else SampleStatus.COLLECTED

/-- The first-match lookup of a test type by name inside save_sample. -/
def findTestType (test_types : List TestType) (test_name : String) : Option TestType :=
  test_types.find? (fun t => t.name == test_name)

/-- The per-test loop of save_sample: for each selected test name that
resolves in the catalog snapshot, create a brand-new patient (freshly
allocated display id, default age 0, gender OTHER and empty contact),
one PENDING test request and one sample.  `fresh` supplies the opaque
uuid tokens and generated barcodes; a name that does not resolve is
silently skipped.  Modelled from the spec: on AllocationExhausted the
create fails, aborting the remaining iterations. -/
def saveSampleLoop (patient_name requested_by : String) (status : SampleStatus)
    (catalog : List TestType) (now : Nat) (fresh : Nat → String) :
    Nat → List String → Store → Store
  | _, [], store => store
  | k, test_name :: rest, store =>
    match findTestType catalog test_name with
    | none => saveSampleLoop patient_name requested_by status catalog now fresh (k + 1) rest store
    | some t =>
      match generatePatientId store with
      | none => store
      | some pid =>
        let patient : Patient :=
          { id := pid, name := patient_name, age := 0,
            gender := Gender.OTHER, contact_info := "" }
        let store1 := dbCreatePatient patient store
        let tr : TestRequest :=
          { id := fresh (3 * k), patient_id := pid, test_type_id := t.id,
            requested_by := requested_by, requested_at := now,
            status := TestStatus.PENDING }
        let store2 := dbCreateTestRequest tr store1
        let smp : Sample :=
          { id := fresh (3 * k + 1), test_request_id := tr.id,
            barcode := fresh (3 * k + 2), collected_at := now,
            status := status, notes := "Sample for " ++ test_name }
        let store3 := dbCreateSample smp store2
        saveSampleLoop patient_name requested_by status catalog now fresh (k + 1) rest store3

/-- The requested-by value of save_sample: the current username, or
"System" when nobody is logged in. -/
def requestedByOf (cu : Option User) : String :=
  match cu with
  | some u => u.username
  | none => "System"

/-- save_sample of add_sample (src/main.py lines 2694-2767): validate
the typed patient name, the selection and the status text, then run the
per-test loop against the catalog snapshot taken when the dialog was
opened.  No lookup of an existing patient by name is ever made. -/
def saveSample (patientNameRaw : String) (selected_tests : List String)
    (statusText : String) (current_user : Option User) (now : Nat)
    (fresh : Nat → String) (store : Store) : Except String Store :=
  let patient_name := pyStrip patientNameRaw
  if patient_name = "" then Except.error "Please enter patient name"
  else if selected_tests = [] then Except.error "Please select at least one test"
  else if statusText = "" then Except.error "Please select status"
  else
    Except.ok (saveSampleLoop patient_name (requestedByOf current_user)
      (sampleStatusMap statusText) store.test_types now fresh 0 selected_tests store)

/-! ## Theorems -/

/-! ### Display-ID arithmetic lemmas -/

theorem padDigits_length (w : Nat) : ∀ n, (padDigits w n).length = w := by
  induction w with
  | zero => intro n; rfl
  | succ w ih => intro n; simp [padDigits, ih]

theorem padDigits_lt_ten (w : Nat) : ∀ n, ∀ d ∈ padDigits w n, d < 10 := by
  induction w with
  | zero => intro n d hd; simp [padDigits] at hd
  | succ w ih =>
      intro n d hd
      simp only [padDigits, List.mem_append, List.mem_singleton] at hd
      rcases hd with hd | hd
      · exact ih _ d hd
      · subst hd; exact Nat.mod_lt _ (by norm_num)

theorem digitsVal_append_singleton (l : List Nat) (d : Nat) :
    digitsVal (l ++ [d]) = digitsVal l * 10 + d := by
  simp [digitsVal, List.foldl_append]

theorem digitsVal_padDigits (w : Nat) : ∀ n, n < 10 ^ w → digitsVal (padDigits w n) = n := by
  induction w with
  | zero =>
      intro n h
      have hn : n = 0 := Nat.lt_one_iff.mp (by simpa using h)
      subst hn; rfl
  | succ w ih =>
      intro n h
      have h1 : n / 10 < 10 ^ w := by
        rw [Nat.div_lt_iff_lt_mul (by norm_num)]
        calc n < 10 ^ (w + 1) := h
          _ = 10 ^ w * 10 := by ring
      rw [padDigits, digitsVal_append_singleton, ih _ h1]
      omega

theorem charDigitVal_ofNat : ∀ d, d < 10 → charDigitVal (Char.ofNat (48 + d)) = d := by
  decide

theorem isDigit_ofNat : ∀ d, d < 10 → (Char.ofNat (48 + d)).isDigit = true := by
  decide

theorem idVal_digitsToString (l : List Nat) (h : ∀ d ∈ l, d < 10) :
    idVal (digitsToString l) = digitsVal l := by
  have : (l.map (fun d => Char.ofNat (48 + d))).map charDigitVal = l := by
    rw [List.map_map]
    exact List.map_congr_left (fun d hd => charDigitVal_ofNat d (h d hd)) |>.trans l.map_id
  simp only [idVal, digitsToString, this]

theorem idVal_pad8 (n : Nat) (h : n < 10 ^ 8) : idVal (pad8 n) = n := by
  rw [pad8, idVal_digitsToString _ (padDigits_lt_ten 8 n), digitsVal_padDigits 8 n h]

theorem pad8_length (n : Nat) : (pad8 n).length = 8 := by
  simp [pad8, digitsToString, String.length, padDigits_length]

theorem pad8_isDigit (n : Nat) : ∀ c ∈ (pad8 n).data, c.isDigit = true := by
  intro c hc
  simp only [pad8, digitsToString, List.mem_map] at hc
  obtain ⟨d, hd, rfl⟩ := hc
  exact isDigit_ofNat d (padDigits_lt_ten 8 n d hd)

theorem le_foldl_max {α : Type} (f : α → Nat) (l : List α) :
    ∀ a, a ≤ l.foldl (fun m p => max m (f p)) a := by
  induction l with
  | nil => intro a; exact Nat.le_refl a
  | cons x xs ih =>
      intro a
      exact le_trans (Nat.le_max_left a (f x)) (ih (max a (f x)))

theorem mem_le_foldl_max {α : Type} (f : α → Nat) (l : List α) :
    ∀ a, ∀ x ∈ l, f x ≤ l.foldl (fun m p => max m (f p)) a := by
  induction l with
  | nil => intro a x hx; simp at hx
  | cons y ys ih =>
      intro a x hx
      rcases List.mem_cons.mp hx with h | h
      · subst h
        exact le_trans (Nat.le_max_right a (f x)) (le_foldl_max f ys (max a (f x)))
      · exact ih (max a (f y)) x h

theorem foldl_max_out {α : Type} (f : α → Nat) (l : List α) :
    ∀ a, l.foldl (fun m p => max m (f p)) a =
      max a (l.foldl (fun m p => max m (f p)) 0) := by
  induction l with
  | nil => intro a; simp
  | cons y ys ih =>
      intro a
      simp only [List.foldl_cons]
      rw [ih (max a (f y)), ih (max 0 (f y))]
      omega

/-- C7: every allocated patient display id is an 8-digit decimal
string whose numeric value is the stored maximum plus one — hence
strictly greater than the id of every patient already in the store and
distinct from all of them — and allocating it advances the stored
maximum, so along any sequence of creations the ids only increase and
are never reused. -/
theorem patient_id_allocation_fresh_and_increasing
    (store : Store) (pid : String)
    (halloc : generatePatientId store = some pid) :
    pid.length = 8 ∧
    (∀ c ∈ pid.data, c.isDigit = true) ∧
    idVal pid = maxPatientNum store + 1 ∧
    (∀ p ∈ store.patients, idVal p.id < idVal pid) ∧
    (∀ p ∈ store.patients, p.id ≠ pid) ∧
    (∀ p : Patient, p.id = pid →
      maxPatientNum (dbCreatePatient p store) = maxPatientNum store + 1) := by
  have h1 : maxPatientNum store + 1 ≤ 99999999 ∧ pid = pad8 (maxPatientNum store + 1) := by
    by_cases h : maxPatientNum store + 1 ≤ 99999999
    · exact ⟨h, by simpa [generatePatientId, h] using halloc.symm⟩
    · simp [generatePatientId, h] at halloc
  obtain ⟨hle, hpid⟩ := h1
  have hlt : maxPatientNum store + 1 < 10 ^ 8 := by omega
  have hval : idVal pid = maxPatientNum store + 1 := by
    rw [hpid]; exact idVal_pad8 _ hlt
  have hub : ∀ p ∈ store.patients, idVal p.id ≤ maxPatientNum store := by
    intro p hp
    exact mem_le_foldl_max (fun p => idVal p.id) store.patients 0 p hp
  refine ⟨?_, ?_, hval, ?_, ?_, ?_⟩
  · rw [hpid]; exact pad8_length _
  · rw [hpid]; exact pad8_isDigit _
  · intro p hp
    rw [hval]
    exact Nat.lt_succ_of_le (hub p hp)
  · intro p hp heq
    have h2 := hub p hp
    rw [heq, hval] at h2
    omega
  · intro p hp
    have : maxPatientNum (dbCreatePatient p store) =
        max (max 0 (idVal p.id)) (maxPatientNum store) := by
      simp only [maxPatientNum, dbCreatePatient, List.foldl_cons]
      exact foldl_max_out (fun p => idVal p.id) store.patients (max 0 (idVal p.id))
    rw [this, hp, hval]
    omega

/-- C7, witness: allocation against a store holding the patient with
id 00000005 yields 00000006, an 8-digit id strictly above it. -/
theorem patient_id_allocation_fresh_and_increasing_witness :
    ("00000006" : String).length = 8 ∧
    (∀ c ∈ ("00000006" : String).data, c.isDigit = true) ∧
    idVal "00000006" =
      maxPatientNum ⟨[⟨pad8 5, "Jane", 30, Gender.FEMALE, "x"⟩], [], [], [], [], []⟩ + 1 ∧
    (∀ p ∈ (⟨[⟨pad8 5, "Jane", 30, Gender.FEMALE, "x"⟩], [], [], [], [], []⟩ : Store).patients,
       idVal p.id < idVal "00000006") ∧
    (∀ p ∈ (⟨[⟨pad8 5, "Jane", 30, Gender.FEMALE, "x"⟩], [], [], [], [], []⟩ : Store).patients,
       p.id ≠ "00000006") ∧
    (∀ p : Patient, p.id = "00000006" →
      maxPatientNum (dbCreatePatient p ⟨[⟨pad8 5, "Jane", 30, Gender.FEMALE, "x"⟩], [], [], [], [], []⟩) =
        maxPatientNum ⟨[⟨pad8 5, "Jane", 30, Gender.FEMALE, "x"⟩], [], [], [], [], []⟩ + 1) :=
  patient_id_allocation_fresh_and_increasing
    ⟨[⟨pad8 5, "Jane", 30, Gender.FEMALE, "x"⟩], [], [], [], [], []⟩ "00000006" (by rfl)

/-- C8: the create paths fail fast on invalid field values — an empty
patient name, a non-numeric age, an age outside 0-150, an empty gender,
an empty test name or category, a non-numeric price or a negative price
each produce a validation error, and the store is returned untouched
(nothing is persisted). -/
theorem create_validation_fails_fast :
    (∀ (nameRaw ageRaw genderText contactRaw : String) (store : Store),
       (pyStrip nameRaw = "" ∨ parseIntPy (pyStrip ageRaw) = none ∨
        (∃ a, parseIntPy (pyStrip ageRaw) = some a ∧ (a < 0 ∨ a > 150)) ∨
        genderText = "") →
       (savePatient nameRaw ageRaw genderText contactRaw store).2 = store ∧
       ∃ e, (savePatient nameRaw ageRaw genderText contactRaw store).1 = Except.error e) ∧
    (∀ (nameRaw categoryRaw priceRaw descRaw : String) (store : Store),
       (pyStrip nameRaw = "" ∨ pyStrip categoryRaw = "" ∨
        parseFloatPy (pyStrip priceRaw) = none ∨
        (∃ q, parseFloatPy (pyStrip priceRaw) = some q ∧ q < 0)) →
       (saveTest nameRaw categoryRaw priceRaw descRaw store).2 = store ∧
       ∃ e, (saveTest nameRaw categoryRaw priceRaw descRaw store).1 = Except.error e) := by
  constructor
  · intro nameRaw ageRaw genderText contactRaw store h
    by_cases hn : pyStrip nameRaw = ""
    · constructor <;> simp [savePatient, hn]
    · rcases h with h | h | ⟨a, ha, hr⟩ | h
      · exact absurd h hn
      · constructor <;> simp [savePatient, hn, h]
      · rcases hr with hr | hr
        · constructor <;> simp [savePatient, hn, ha, hr]
        · constructor <;> simp [savePatient, hn, ha, hr]
      · cases hpi : parseIntPy (pyStrip ageRaw) with
        | none => constructor <;> simp [savePatient, hn, hpi]
        | some a =>
            by_cases hr : a < 0 ∨ a > 150
            · rcases hr with hr | hr
              · constructor <;> simp [savePatient, hn, hpi, hr]
              · constructor <;> simp [savePatient, hn, hpi, hr]
            · constructor <;> simp [savePatient, hn, hpi, hr, h]
  · intro nameRaw categoryRaw priceRaw descRaw store h
    by_cases hn : pyStrip nameRaw = ""
    · constructor <;> simp [saveTest, hn]
    · by_cases hc : pyStrip categoryRaw = ""
      · constructor <;> simp [saveTest, hn, hc]
      · rcases h with h | h | h | ⟨q, hq, hneg⟩
        · exact absurd h hn
        · exact absurd h hc
        · constructor <;> simp [saveTest, hn, hc, h]
        · constructor <;> simp [saveTest, hn, hc, hq, hneg]

/-- C8, witness: a non-numeric age and a negative price are rejected
with the store unchanged. -/
theorem create_validation_fails_fast_witness :
    ((savePatient "John" "abc" "Male" "" ⟨[], [], [], [], [], []⟩).2 =
       ⟨[], [], [], [], [], []⟩ ∧
     ∃ e, (savePatient "John" "abc" "Male" "" ⟨[], [], [], [], [], []⟩).1 =
       Except.error e) ∧
    ((saveTest "CBC" "Blood" "-5" "" ⟨[], [], [], [], [], []⟩).2 =
       ⟨[], [], [], [], [], []⟩ ∧
     ∃ e, (saveTest "CBC" "Blood" "-5" "" ⟨[], [], [], [], [], []⟩).1 =
       Except.error e) :=
  ⟨create_validation_fails_fast.1 "John" "abc" "Male" "" ⟨[], [], [], [], [], []⟩
     (Or.inr (Or.inl (by rfl))),
   create_validation_fails_fast.2 "CBC" "Blood" "-5" "" ⟨[], [], [], [], [], []⟩
     (Or.inr (Or.inr (Or.inr ⟨-5, by rfl, by norm_num⟩)))⟩

theorem foldl_createTestType_users (l : List TestType) :
    ∀ s : Store, (l.foldl (fun s t => dbCreateTestType t s) s).users = s.users := by
  induction l with
  | nil => intro s; rfl
  | cons t ts ih => intro s; rw [List.foldl_cons]; exact ih _

theorem loadInitialData_users (adminId : String) (ttIds : List String) (store : Store)
    (h : getUserByUsername "admin" store = none) :
    (loadInitialData adminId ttIds store).users = adminUser adminId :: store.users := by
  simp only [loadInitialData, h]
  split
  · exact foldl_createTestType_users _ _
  · rfl

set_option maxRecDepth 40000 in
theorem hashPassword_admin123 :
    hashPassword "admin123" =
      "240be518fabd2724ddb6f04eeb1da5967448d7e831c08c8fa822809f74c720a9" := by
  decide

/-- C9: when no user named admin exists, startup creates one with role
ADMIN and password hash SHA-256 of admin123 (the well-known digest
240be518...20a9); thereafter logging in with admin and admin123 yields
that user, who passes every gate of the application. -/
theorem startup_creates_default_admin
    (adminId : String) (ttIds : List String) (store : Store)
    (h : getUserByUsername "admin" store = none) :
    getUserByUsername "admin" (loadInitialData adminId ttIds store) = some (adminUser adminId) ∧
    (adminUser adminId).role = UserRole.ADMIN ∧
    (adminUser adminId).password_hash =
      "240be518fabd2724ddb6f04eeb1da5967448d7e831c08c8fa822809f74c720a9" ∧
    login "admin" "admin123" (loadInitialData adminId ttIds store) = some (adminUser adminId) ∧
    editSystemNameAllowed (some (adminUser adminId)) = true ∧
    enableNavigation (adminUser adminId) = { nav_enabled := true, admin_buttons_enabled := true } := by
  have husers := loadInitialData_users adminId ttIds store h
  refine ⟨?_, rfl, hashPassword_admin123, ?_, rfl, rfl⟩
  · simp [getUserByUsername, husers, adminUser]
  · simp [login, authenticateUser, getUserByUsername, husers, adminUser]

/-- C9, witness: the startup theorem evaluated on the empty store. -/
theorem startup_creates_default_admin_witness :
    getUserByUsername "admin" (loadInitialData "a1" ["t1", "t2", "t3", "t4"] ⟨[], [], [], [], [], []⟩) =
      some (adminUser "a1") ∧
    (adminUser "a1").role = UserRole.ADMIN ∧
    (adminUser "a1").password_hash =
      "240be518fabd2724ddb6f04eeb1da5967448d7e831c08c8fa822809f74c720a9" ∧
    login "admin" "admin123" (loadInitialData "a1" ["t1", "t2", "t3", "t4"] ⟨[], [], [], [], [], []⟩) =
      some (adminUser "a1") ∧
    editSystemNameAllowed (some (adminUser "a1")) = true ∧
    enableNavigation (adminUser "a1") = { nav_enabled := true, admin_buttons_enabled := true } :=
  startup_creates_default_admin "a1" ["t1", "t2", "t3", "t4"] ⟨[], [], [], [], [], []⟩ (by rfl)

/-- C1, counterexample: a TestRequest whose status is COMPLETED is
updated to PENDING by the edit-test-request save path; the call
succeeds (no InvalidTransition) and the stored status changes. -/
theorem editTestRequestSave_completed_to_pending_accepted :
    editTestRequestSave "Alice" "Pending"
      ⟨"tr1", "p1", "t1", "Bob", 0, TestStatus.COMPLETED⟩
      ⟨[], [], [⟨"tr1", "p1", "t1", "Bob", 0, TestStatus.COMPLETED⟩], [], [], []⟩ =
    Except.ok
      (⟨"tr1", "p1", "t1", "Alice", 0, TestStatus.PENDING⟩,
       ⟨[], [], [⟨"tr1", "p1", "t1", "Alice", 0, TestStatus.PENDING⟩], [], [], []⟩) := by
  rfl

/-- C1, amended: the save path of the edit-test-request operation
enforces no transition rules at all — for every current status,
including the terminal COMPLETED and CANCELLED, and every selected
label, the save succeeds whenever the requested-by field is non-empty,
and the stored status becomes the selected status. -/
theorem editTestRequestSave_accepts_any_transition
    (rb label : String) (request : TestRequest) (store : Store)
    (h : pyStrip rb ≠ "") :
    editTestRequestSave rb label request store =
      Except.ok
        ({ request with requested_by := pyStrip rb, status := statusMap label },
         dbUpdateTestRequest
           { request with requested_by := pyStrip rb, status := statusMap label } store) := by
  simp [editTestRequestSave, h]

/-- C1, witness: the amended theorem evaluated on a CANCELLED request
being moved back to IN_PROGRESS. -/
theorem editTestRequestSave_accepts_any_transition_witness :
    editTestRequestSave "Carol" "In Progress"
      ⟨"tr2", "p1", "t1", "Bob", 3, TestStatus.CANCELLED⟩ ⟨[], [], [], [], [], []⟩ =
    Except.ok
      (⟨"tr2", "p1", "t1", "Carol", 3, TestStatus.IN_PROGRESS⟩,
       ⟨[], [], [], [], [], []⟩) :=
  (editTestRequestSave_accepts_any_transition "Carol" "In Progress"
    ⟨"tr2", "p1", "t1", "Bob", 3, TestStatus.CANCELLED⟩ ⟨[], [], [], [], [], []⟩
    (by decide)).trans (by rfl)

/-- C2: a user whose role is ADMIN is authorized by every gate of the
source — the edit-system-name gate passes and enable_navigation turns
every button on — for every permission set (the gates never read
`permissions`) and unconditionally. -/
theorem admin_role_always_authorized (u : User) (h : u.role = UserRole.ADMIN) :
    editSystemNameAllowed (some u) = true ∧
    enableNavigation u = { nav_enabled := true, admin_buttons_enabled := true } := by
  simp [editSystemNameAllowed, enableNavigation, h]

/-- C2, witness: an ADMIN with an empty explicit permission set is
authorized. -/
theorem admin_role_always_authorized_witness :
    editSystemNameAllowed
      (some ⟨"u1", "root", "root@lab.com", "h", UserRole.ADMIN, [], true⟩) = true ∧
    enableNavigation ⟨"u1", "root", "root@lab.com", "h", UserRole.ADMIN, [], true⟩ =
      { nav_enabled := true, admin_buttons_enabled := true } :=
  admin_role_always_authorized ⟨"u1", "root", "root@lab.com", "h", UserRole.ADMIN, [], true⟩ rfl

/-- C3, counterexample: an inactive ADMIN (is_active = false, a
permission in their set) is authorized by the edit-system-name gate and
logs in successfully with matching credentials — the claim says every
request of an inactive user is denied and that they cannot log in. -/
theorem inactive_admin_authorized_and_logs_in :
    editSystemNameAllowed
      (some ⟨"u9", "sleeper", "s@lab.com", hashPassword "pw", UserRole.ADMIN,
             [Permission.VIEW_PATIENTS], false⟩) = true ∧
    login "sleeper" "pw"
      ⟨[], [], [], [], [],
       [⟨"u9", "sleeper", "s@lab.com", hashPassword "pw", UserRole.ADMIN,
         [Permission.VIEW_PATIENTS], false⟩]⟩ =
      some ⟨"u9", "sleeper", "s@lab.com", hashPassword "pw", UserRole.ADMIN,
            [Permission.VIEW_PATIENTS], false⟩ := by
  refine ⟨rfl, ?_⟩
  simp [login, authenticateUser, getUserByUsername]

/-- C3, amended: is_active is never consulted — the authorization gates
decide by role alone, so flipping is_active changes no decision, and
login succeeds for any stored user whose username and password hash
match the supplied credentials, active or not. -/
theorem is_active_never_consulted
    (u : User) (b : Bool) (st : Store) (un pw : String)
    (hun : un ≠ "") (hpw : pw ≠ "")
    (hn : u.username = un) (hh : u.password_hash = hashPassword pw) :
    editSystemNameAllowed (some { u with is_active := b }) = editSystemNameAllowed (some u) ∧
    enableNavigation { u with is_active := b } = enableNavigation u ∧
    login un pw { st with users := u :: st.users } = some u := by
  refine ⟨rfl, rfl, ?_⟩
  simp [login, authenticateUser, getUserByUsername, hun, hpw, hn, hh]

/-- C3, witness: the amended theorem evaluated on an inactive
technician. -/
theorem is_active_never_consulted_witness :
    editSystemNameAllowed
        (some { (⟨"u2", "tech", "t@lab.com", hashPassword "s3cret", UserRole.TECHNICIAN, [], true⟩ : User) with
                is_active := false }) =
      editSystemNameAllowed
        (some ⟨"u2", "tech", "t@lab.com", hashPassword "s3cret", UserRole.TECHNICIAN, [], true⟩) ∧
    enableNavigation
        { (⟨"u2", "tech", "t@lab.com", hashPassword "s3cret", UserRole.TECHNICIAN, [], true⟩ : User) with
          is_active := false } =
      enableNavigation ⟨"u2", "tech", "t@lab.com", hashPassword "s3cret", UserRole.TECHNICIAN, [], true⟩ ∧
    login "tech" "s3cret"
        { (⟨[], [], [], [], [], []⟩ : Store) with
          users := ⟨"u2", "tech", "t@lab.com", hashPassword "s3cret", UserRole.TECHNICIAN, [], true⟩ :: ([] : List User) } =
      some ⟨"u2", "tech", "t@lab.com", hashPassword "s3cret", UserRole.TECHNICIAN, [], true⟩ :=
  is_active_never_consulted
    ⟨"u2", "tech", "t@lab.com", hashPassword "s3cret", UserRole.TECHNICIAN, [], true⟩
    false ⟨[], [], [], [], [], []⟩ "tech" "s3cret"
    (by decide) (by decide) rfl rfl

/-- C4, counterexample: a report already signed by "alice" at time 5 is
saved through the edit-result path by user "bob" at time 9; the stored
signature fields become "bob" and 9 — the claim says they are left
exactly as they were. -/
theorem editResultSave_overwrites_signature :
    editResultSave ⟨"r1", "tr1", "old", "alice", some 5⟩ "new text"
      (some ⟨"bob", "bob", "b@lab.com", "h", UserRole.DOCTOR, [], true⟩) 9
      ⟨[], [], [], [], [⟨"r1", "tr1", "old", "alice", some 5⟩], []⟩ =
    Except.ok
      (⟨"r1", "tr1", "new text", "bob", some 9⟩,
       ⟨[], [], [], [], [⟨"r1", "tr1", "new text", "bob", some 9⟩], []⟩) := by
  rfl

/-- C4, amended: only the view-report save path satisfies the frame
condition — on an already-signed report it changes content alone and
leaves every other field, the signature included, untouched; the
edit-result save path instead overwrites signed_by with the current
actor and signed_at with the save time on every save. -/
theorem signed_report_edit_signature_frame :
    (∀ (r : MedicalReport) (c : String) (cu : Option User) (now : Nat),
       r.signed_by ≠ "N/A" →
         (updateContent r c cu now).id = r.id ∧
         (updateContent r c cu now).test_request_id = r.test_request_id ∧
         (updateContent r c cu now).content = pyStrip c ∧
         (updateContent r c cu now).signed_by = r.signed_by ∧
         (updateContent r c cu now).signed_at = r.signed_at) ∧
    (∀ (r : MedicalReport) (c : String) (u : User) (now : Nat) (st : Store),
       pyStrip c ≠ "" →
         editResultSave r c (some u) now st =
           Except.ok
             ({ r with content := pyStrip c, signed_by := u.id, signed_at := some now },
              dbUpdateReport
                { r with content := pyStrip c, signed_by := u.id, signed_at := some now } st)) := by
  constructor
  · intro r c cu now h
    simp [updateContent, h]
  · intro r c u now st h
    simp [editResultSave, h]

/-- C4, witness: both conjuncts of the amended theorem evaluated on
concrete signed reports. -/
theorem signed_report_edit_signature_frame_witness :
    (updateContent ⟨"r1", "tr1", "old", "alice", some 5⟩ "fresh body" none 9).signed_by = "alice" ∧
    (updateContent ⟨"r1", "tr1", "old", "alice", some 5⟩ "fresh body" none 9).signed_at = some 5 ∧
    editResultSave ⟨"r2", "tr2", "old", "N/A", none⟩ "body"
        (some ⟨"bob", "bob", "b@lab.com", "h", UserRole.DOCTOR, [], true⟩) 7
        ⟨[], [], [], [], [], []⟩ =
      Except.ok
        ({ (⟨"r2", "tr2", "old", "N/A", none⟩ : MedicalReport) with
           content := pyStrip "body", signed_by := "bob", signed_at := some 7 },
         dbUpdateReport
           { (⟨"r2", "tr2", "old", "N/A", none⟩ : MedicalReport) with
             content := pyStrip "body", signed_by := "bob", signed_at := some 7 }
           ⟨[], [], [], [], [], []⟩) :=
  ⟨(signed_report_edit_signature_frame.1 ⟨"r1", "tr1", "old", "alice", some 5⟩
      "fresh body" none 9 (by decide)).2.2.2.1,
   (signed_report_edit_signature_frame.1 ⟨"r1", "tr1", "old", "alice", some 5⟩
      "fresh body" none 9 (by decide)).2.2.2.2,
   signed_report_edit_signature_frame.2 ⟨"r2", "tr2", "old", "N/A", none⟩ "body"
     ⟨"bob", "bob", "b@lab.com", "h", UserRole.DOCTOR, [], true⟩ 7
     ⟨[], [], [], [], [], []⟩ (by decide)⟩

/-- C5: first save signs — a MedicalReport created with the unsigned
sentinel (created with no current user, hence signed_by = "N/A"), once
saved through the view-report path by an actor, carries that actor as
signer (hence a non-sentinel signed_by) and a set signed_at. -/
theorem unsigned_report_first_save_signs
    (rid c c2 newId : String) (u : User) (now now2 : Nat) (store : Store)
    (hrid : pyStrip rid ≠ "") (hc : pyStrip c ≠ "") (hu : u.id ≠ "N/A") :
    ∃ r st1,
      createReportSave rid c none newId now store = Except.ok (r, st1) ∧
      r.signed_by = "N/A" ∧
      (updateContent r c2 (some u) now2).signed_by = u.id ∧
      (updateContent r c2 (some u) now2).signed_by ≠ "N/A" ∧
      (updateContent r c2 (some u) now2).signed_at = some now2 := by
  refine ⟨{ id := newId, test_request_id := pyStrip rid, content := pyStrip c,
            signed_by := "N/A", signed_at := some now },
          dbCreateReport
            { id := newId, test_request_id := pyStrip rid, content := pyStrip c,
              signed_by := "N/A", signed_at := some now } store,
          ?_, rfl, ?_, ?_, ?_⟩
  · simp [createReportSave, hrid, hc]
  · simp [updateContent]
  · simp [updateContent, hu]
  · simp [updateContent]

/-- C5, witness: the round trip evaluated on a concrete report and
actor. -/
theorem unsigned_report_first_save_signs_witness :
    ∃ r st1,
      createReportSave "TR1" "hello" none "rep1" 1 ⟨[], [], [], [], [], []⟩ =
        Except.ok (r, st1) ∧
      r.signed_by = "N/A" ∧
      (updateContent r "world"
        (some ⟨"bob", "bob", "b@lab.com", "h", UserRole.DOCTOR, [], true⟩) 2).signed_by = "bob" ∧
      (updateContent r "world"
        (some ⟨"bob", "bob", "b@lab.com", "h", UserRole.DOCTOR, [], true⟩) 2).signed_by ≠ "N/A" ∧
      (updateContent r "world"
        (some ⟨"bob", "bob", "b@lab.com", "h", UserRole.DOCTOR, [], true⟩) 2).signed_at = some 2 :=
  unsigned_report_first_save_signs "TR1" "hello" "world" "rep1"
    ⟨"bob", "bob", "b@lab.com", "h", UserRole.DOCTOR, [], true⟩ 1 2
    ⟨[], [], [], [], [], []⟩ (by decide) (by decide) (by decide)

/-- C6, counterexample: create_report with a test_request_id that
resolves to no TestRequest (the store holds none at all) succeeds and
persists the report — the claim says it fails with ReferenceNotFound
and persists nothing. -/
theorem createReportSave_dangling_reference_persisted :
    createReportSave "TR-MISSING" "some content" none "rep1" 0
      ⟨[], [], [], [], [], []⟩ =
    Except.ok
      (⟨"rep1", "TR-MISSING", "some content", "N/A", some 0⟩,
       ⟨[], [], [], [], [⟨"rep1", "TR-MISSING", "some content", "N/A", some 0⟩], []⟩) := by
  rfl

/-- C6, amended: create_report validates only that the typed request id
and content are non-empty; it performs no existence check on the
referenced test request — for every store, resolvable reference or not,
it succeeds and persists the report. -/
theorem createReportSave_no_reference_check
    (rid c newId : String) (cu : Option User) (now : Nat) (store : Store)
    (h1 : pyStrip rid ≠ "") (h2 : pyStrip c ≠ "") :
    createReportSave rid c cu newId now store =
      Except.ok
        ({ id := newId, test_request_id := pyStrip rid, content := pyStrip c,
           signed_by := match cu with
             | some u => u.id
             | none => "N/A",
           signed_at := some now },
         dbCreateReport
           { id := newId, test_request_id := pyStrip rid, content := pyStrip c,
             signed_by := match cu with
               | some u => u.id
               | none => "N/A",
             signed_at := some now } store) := by
  simp [createReportSave, h1, h2]

/-- C6, witness: the amended theorem evaluated on a store with an
empty TestRequest table. -/
theorem createReportSave_no_reference_check_witness :
    createReportSave "TR404" "body" none "rep9" 4 ⟨[], [], [], [], [], []⟩ =
      Except.ok
        ({ id := "rep9", test_request_id := pyStrip "TR404", content := pyStrip "body",
           signed_by := "N/A", signed_at := some 4 },
         dbCreateReport
           { id := "rep9", test_request_id := pyStrip "TR404", content := pyStrip "body",
             signed_by := "N/A", signed_at := some 4 }
           ⟨[], [], [], [], [], []⟩) :=
  createReportSave_no_reference_check "TR404" "body" "rep9" none 4
    ⟨[], [], [], [], [], []⟩ (by decide) (by decide)

theorem maxPatientNum_patients_eq (s1 s2 : Store) (h : s1.patients = s2.patients) :
    maxPatientNum s1 = maxPatientNum s2 := by
  simp [maxPatientNum, h]

theorem saveSampleLoop_spec
    (pn rb : String) (st : SampleStatus) (catalog : List TestType)
    (now : Nat) (fresh : Nat → String) :
    ∀ (tests : List String) (k : Nat) (store : Store),
      (∀ nm ∈ tests, ∃ t ∈ catalog, t.name = nm) →
      maxPatientNum store + tests.length ≤ 99999999 →
      ∃ newPs : List Patient,
        (saveSampleLoop pn rb st catalog now fresh k tests store).patients =
          newPs ++ store.patients ∧
        newPs.length = tests.length ∧
        (∀ p ∈ newPs,
          p.name = pn ∧ p.age = 0 ∧ p.gender = Gender.OTHER ∧
          p.contact_info = "" ∧ p.id.length = 8 ∧
          (∀ c ∈ p.id.data, c.isDigit = true)) ∧
        (∀ p ∈ newPs, ∀ q ∈ store.patients, p.id ≠ q.id) ∧
        (newPs.map (fun p => p.id)).Nodup ∧
        (saveSampleLoop pn rb st catalog now fresh k tests store).test_requests.length =
          tests.length + store.test_requests.length ∧
        (saveSampleLoop pn rb st catalog now fresh k tests store).samples.length =
          tests.length + store.samples.length := by
  intro tests
  induction tests with
  | nil =>
      intro k store hres hroom
      exact ⟨[], rfl, rfl, by simp, by simp, by simp, by simp [saveSampleLoop], by simp [saveSampleLoop]⟩
  | cons nm rest ih =>
      intro k store hres hroom
      obtain ⟨t, htmem, htname⟩ := hres nm (List.mem_cons_self nm rest)
      obtain ⟨t', hft⟩ : ∃ t', findTestType catalog nm = some t' := by
        cases hf : findTestType catalog nm with
        | some t' => exact ⟨t', rfl⟩
        | none =>
            exfalso
            have hnone := List.find?_eq_none.mp hf t htmem
            simp [htname] at hnone
      have hle : maxPatientNum store + 1 ≤ 99999999 := by
        simp only [List.length_cons] at hroom
        omega
      have hgen : generatePatientId store = some (pad8 (maxPatientNum store + 1)) := by
        simp [generatePatientId, hle]
      have hvalpid : idVal (pad8 (maxPatientNum store + 1)) = maxPatientNum store + 1 :=
        idVal_pad8 _ (by omega)
      have hub : ∀ q ∈ store.patients, idVal q.id ≤ maxPatientNum store := by
        intro q hq
        exact mem_le_foldl_max (fun p => idVal p.id) store.patients 0 q hq
      have hstep : saveSampleLoop pn rb st catalog now fresh k (nm :: rest) store =
          saveSampleLoop pn rb st catalog now fresh (k + 1) rest
            (dbCreateSample
              { id := fresh (3 * k + 1), test_request_id := fresh (3 * k),
                barcode := fresh (3 * k + 2), collected_at := now, status := st,
                notes := "Sample for " ++ nm }
              (dbCreateTestRequest
                { id := fresh (3 * k), patient_id := pad8 (maxPatientNum store + 1),
                  test_type_id := t'.id, requested_by := rb, requested_at := now,
                  status := TestStatus.PENDING }
                (dbCreatePatient
                  ⟨pad8 (maxPatientNum store + 1), pn, 0, Gender.OTHER, ""⟩ store))) := by
        simp only [saveSampleLoop, hft, hgen]
      set store3 : Store :=
        dbCreateSample
          { id := fresh (3 * k + 1), test_request_id := fresh (3 * k),
            barcode := fresh (3 * k + 2), collected_at := now, status := st,
            notes := "Sample for " ++ nm }
          (dbCreateTestRequest
            { id := fresh (3 * k), patient_id := pad8 (maxPatientNum store + 1),
              test_type_id := t'.id, requested_by := rb, requested_at := now,
              status := TestStatus.PENDING }
            (dbCreatePatient
              ⟨pad8 (maxPatientNum store + 1), pn, 0, Gender.OTHER, ""⟩ store)) with hstore3
      have hpat3 : store3.patients =
          (⟨pad8 (maxPatientNum store + 1), pn, 0, Gender.OTHER, ""⟩ : Patient) :: store.patients := rfl
      have htr3 : store3.test_requests.length = store.test_requests.length + 1 := by
        simp [hstore3, dbCreateSample, dbCreateTestRequest, dbCreatePatient]
      have hsm3 : store3.samples.length = store.samples.length + 1 := by
        simp [hstore3, dbCreateSample, dbCreateTestRequest, dbCreatePatient]
      have hmax3 : maxPatientNum store3 = maxPatientNum store + 1 := by
        have h1 : maxPatientNum store3 =
            store.patients.foldl (fun m p => max m (idVal p.id))
              (max 0 (idVal (pad8 (maxPatientNum store + 1)))) := by
          simp only [maxPatientNum, hpat3, List.foldl_cons]
        rw [h1, foldl_max_out (fun p => idVal p.id) store.patients, hvalpid]
        have h2 : store.patients.foldl (fun m p => max m (idVal p.id)) 0 =
            maxPatientNum store := rfl
        rw [h2]
        omega
      have hroom3 : maxPatientNum store3 + rest.length ≤ 99999999 := by
        simp only [List.length_cons] at hroom
        omega
      have hres3 : ∀ x ∈ rest, ∃ u ∈ catalog, u.name = x :=
        fun x hx => hres x (List.mem_cons_of_mem _ hx)
      obtain ⟨newRest, hp1, hp2, hp3, hp4, hp5, hp6, hp7⟩ := ih (k + 1) store3 hres3 hroom3
      refine ⟨newRest ++ [⟨pad8 (maxPatientNum store + 1), pn, 0, Gender.OTHER, ""⟩],
              ?_, ?_, ?_, ?_, ?_, ?_, ?_⟩
      · rw [hstep, hp1, hpat3, List.append_assoc, List.singleton_append]
      · simp [hp2]
      · intro p hp
        rcases List.mem_append.mp hp with h | h
        · exact hp3 p h
        · rw [List.mem_singleton] at h
          subst h
          exact ⟨rfl, rfl, rfl, rfl, pad8_length _, pad8_isDigit _⟩
      · intro p hp q hq
        rcases List.mem_append.mp hp with h | h
        · exact hp4 p h q (hpat3 ▸ List.mem_cons_of_mem _ hq)
        · rw [List.mem_singleton] at h
          subst h
          intro heq
          have h2 := hub q hq
          rw [← heq] at h2
          simp only [hvalpid] at h2
          omega
      · rw [List.map_append, List.nodup_append]
        refine ⟨hp5, List.nodup_singleton _, ?_⟩
        intro x hx hx2
        simp only [List.map_cons, List.map_nil, List.mem_singleton] at hx2
        subst hx2
        obtain ⟨p, hpmem, hpid⟩ := List.mem_map.mp hx
        have hhead : (⟨pad8 (maxPatientNum store + 1), pn, 0, Gender.OTHER, ""⟩ : Patient) ∈
            store3.patients := by
          rw [hpat3]; exact List.mem_cons_self _ _
        exact hp4 p hpmem _ hhead hpid
      · rw [hstep, hp6, htr3]
        simp only [List.length_cons]
        omega
      · rw [hstep, hp7, hsm3]
        simp only [List.length_cons]
        omega

/-- C10: a save of the add-sample dialog with N selected tests creates
N brand-new patients — each with a freshly allocated 8-digit display
id, the typed name, age 0, gender OTHER and empty contact — plus one
test request and one sample per test; it never reuses an existing
patient record, even one with the very same name, so the patient count
grows by N on every save. -/
theorem add_sample_creates_new_patients_per_test
    (pn : String) (tests : List String) (stText : String)
    (cu : Option User) (now : Nat) (fresh : Nat → String) (store : Store)
    (hpn : pyStrip pn ≠ "") (hne : tests ≠ []) (hst : stText ≠ "")
    (hres : ∀ nm ∈ tests, ∃ t ∈ store.test_types, t.name = nm)
    (hroom : maxPatientNum store + tests.length ≤ 99999999) :
    ∃ store' newPs,
      saveSample pn tests stText cu now fresh store = Except.ok store' ∧
      store'.patients = newPs ++ store.patients ∧
      newPs.length = tests.length ∧
      (∀ p ∈ newPs,
        p.name = pyStrip pn ∧ p.age = 0 ∧ p.gender = Gender.OTHER ∧
        p.contact_info = "" ∧ p.id.length = 8 ∧
        (∀ c ∈ p.id.data, c.isDigit = true)) ∧
      (∀ p ∈ newPs, ∀ q ∈ store.patients, p.id ≠ q.id) ∧
      (newPs.map (fun p => p.id)).Nodup ∧
      store'.test_requests.length = tests.length + store.test_requests.length ∧
      store'.samples.length = tests.length + store.samples.length := by
  have hsave : saveSample pn tests stText cu now fresh store =
      Except.ok (saveSampleLoop (pyStrip pn) (requestedByOf cu)
        (sampleStatusMap stText) store.test_types now fresh 0 tests store) := by
    simp [saveSample, hpn, hne, hst]
  obtain ⟨newPs, h1, h2, h3, h4, h5, h6, h7⟩ :=
    saveSampleLoop_spec (pyStrip pn) (requestedByOf cu)
      (sampleStatusMap stText) store.test_types now fresh tests 0 store hres hroom
  exact ⟨_, newPs, hsave, h1, h2, h3, h4, h5, h6, h7⟩

/-- C10, witness: saving one selected test against a store that already
holds a patient named Jane creates a second, distinct Jane record. -/
theorem add_sample_creates_new_patients_per_test_witness :
    ∃ store' newPs,
      saveSample "Jane" ["CBC"] "Collected" none 7 (fun _ => "u")
        ⟨[⟨pad8 5, "Jane", 30, Gender.FEMALE, "x"⟩],
         [⟨"001", "CBC", "blood count", 50, "Blood"⟩], [], [], [], []⟩ =
        Except.ok store' ∧
      store'.patients = newPs ++
        (⟨[⟨pad8 5, "Jane", 30, Gender.FEMALE, "x"⟩],
          [⟨"001", "CBC", "blood count", 50, "Blood"⟩], [], [], [], []⟩ : Store).patients ∧
      newPs.length = (["CBC"] : List String).length ∧
      (∀ p ∈ newPs,
        p.name = pyStrip "Jane" ∧ p.age = 0 ∧ p.gender = Gender.OTHER ∧
        p.contact_info = "" ∧ p.id.length = 8 ∧
        (∀ c ∈ p.id.data, c.isDigit = true)) ∧
      (∀ p ∈ newPs,
        ∀ q ∈ (⟨[⟨pad8 5, "Jane", 30, Gender.FEMALE, "x"⟩],
                [⟨"001", "CBC", "blood count", 50, "Blood"⟩], [], [], [], []⟩ : Store).patients,
          p.id ≠ q.id) ∧
      (newPs.map (fun p => p.id)).Nodup ∧
      store'.test_requests.length = (["CBC"] : List String).length +
        (⟨[⟨pad8 5, "Jane", 30, Gender.FEMALE, "x"⟩],
          [⟨"001", "CBC", "blood count", 50, "Blood"⟩], [], [], [], []⟩ : Store).test_requests.length ∧
      store'.samples.length = (["CBC"] : List String).length +
        (⟨[⟨pad8 5, "Jane", 30, Gender.FEMALE, "x"⟩],
          [⟨"001", "CBC", "blood count", 50, "Blood"⟩], [], [], [], []⟩ : Store).samples.length :=
  add_sample_creates_new_patients_per_test "Jane" ["CBC"] "Collected" none 7 (fun _ => "u")
    ⟨[⟨pad8 5, "Jane", 30, Gender.FEMALE, "x"⟩],
     [⟨"001", "CBC", "blood count", 50, "Blood"⟩], [], [], [], []⟩
    (by decide) (by decide) (by decide) (by decide) (by decide)

end MedLab
